import Mathlib

/-!
Verification of the user-registration microservice (Go, gin + mongo-driver)
against its natural-language specification.

The embedding below translates the live code of the repository:

* `cmd/controllers/user_controller.go` — the handlers `CreateUser`,
  `ValidateRequest`, `FindById`, `GetUsers`, `FindByEmail` (the version wired
  to `configs.Database`, whose response messages are the ones asserted by
  `cmd/controllers/user_controller_test.go`);
* `internal/configs` mongo layer — `MongoDB.CreateUser`, `FindUserByID`,
  `FindUserByEmail`, `FindAllUsers`;
* `internal/models/user_model.go` — `User`, `UserWithCompanyAsObject`;
* `primitive.ObjectIDFromHex` / `ObjectID.Hex` from the mongo driver, modelled
  up to the canonical bijection between 12-byte identifiers and their 24-char
  lowercase hexadecimal encodings.

The repository also contains older, dead copies of the controller (one of
which still carries the `CreateCompany` provisioner branch); the live handler
never calls a provisioner, and the embedding records that by tracing every
outbound call the handler makes.
-/

namespace UserService

/-! ## Identifier codec (`primitive.ObjectID`)

A mongo `ObjectID` is 12 bytes; `ObjectIDFromHex` accepts exactly the strings
of 24 hexadecimal characters and `Hex` prints the 12 bytes back as 24
lowercase hexadecimal characters.  Byte vectors of length 12 are in bijection
with 24-character lowercase hex strings, and the code only ever parses,
prints, and compares identifiers, so we represent an `ObjectID` by its
canonical (lowercase) hex encoding. -/

/-- Wrapper for a mongo object identifier, represented by the canonical
lowercase hexadecimal encoding of its 12 bytes. -/
structure ObjectID where
  hex : String
deriving DecidableEq, Repr

/-- Character-level test used by `hex.DecodeString`: both cases accepted. -/
def isHexChar (c : Char) : Bool :=
  (('0' ≤ c) && (c ≤ '9')) || (('a' ≤ c) && (c ≤ 'f')) || (('A' ≤ c) && (c ≤ 'F'))

/-- ASCII lowercase of one character (the only case folding hex needs). -/
def charToLower (c : Char) : Char :=
  if ('A' ≤ c) && (c ≤ 'Z') then Char.ofNat (c.toNat + 32) else c

/-- Translation of `primitive.ObjectIDFromHex`: the token must be exactly 24
hexadecimal characters, otherwise the decode errors (modelled as `none`).
Decoding normalises to the canonical lowercase form, matching the byte-level
equality of the driver. -/
def ObjectIDFromHex (s : String) : Option ObjectID :=
  if s.length == 24 && s.toList.all isHexChar then
    some ⟨⟨s.data.map charToLower⟩⟩
  else
    none

/-- Translation of `primitive.ObjectID.Hex`. -/
def ObjectID.Hex (o : ObjectID) : String := o.hex

/-- Translation of `primitive.NilObjectID` (the all-zero identifier), the zero
value a discarded decode error leaves behind. -/
def NilObjectID : ObjectID := ⟨"000000000000000000000000"⟩

/-! ## Data model (`internal/models/user_model.go`) -/

/-- Translation of `models.User`, the inbound registration payload.  The five
string fields `Name`..`Company` carry `validate:"required"`; `Id` and
`Invitation` do not. -/
structure User where
  Id : String := ""
  Name : String
  Password : String
  Email : String
  Role : String
  Company : String
  Invitation : Bool := false
deriving DecidableEq, Repr

/-- Translation of `models.UserWithCompanyAsObject`, the persisted record:
the company is held as a decoded `ObjectID`.  The Go struct literal in the
handler leaves `Id` at its zero value, so the default is `NilObjectID`. -/
structure UserWithCompanyAsObject where
  Id : ObjectID := NilObjectID
  Name : String
  Password : String
  Email : String
  Role : String
  Company : ObjectID
deriving DecidableEq, Repr

/-! ## Validator (`validator.v10` on `models.User`)

`validate.Struct` visits the tagged fields in declaration order and collects
one `FieldError` per failing field into a single `ValidationErrors` value; for
a `string` field, `required` fails exactly when the field is the empty string.
We model the aggregated error by the list of failing field names. -/

/-- Names of the `validate:"required"` fields of `models.User` that are empty
in `u`, in struct declaration order — the per-field errors that
`validator.v10` aggregates into one `ValidationErrors` value. -/
def User.missingRequiredFields (u : User) : List String :=
  (if u.Name = "" then ["Name"] else []) ++
  (if u.Password = "" then ["Password"] else []) ++
  (if u.Email = "" then ["Email"] else []) ++
  (if u.Role = "" then ["Role"] else []) ++
  (if u.Company = "" then ["Company"] else [])

/-- Translation of `ValidateRequest`: `validate.Struct(&user)` returns the
aggregated error when any required field fails, `nil` otherwise. -/
def ValidateRequest (u : User) : Option (List String) :=
  match u.missingRequiredFields with
  | [] => none
  | fs => some fs

/-! ## The store interface (`configs.Database`)

Go returns `(value, error)` pairs; the single-record lookups are consumed both
with the error inspected (`FindById`, `FindByEmail` handlers) and with the
error discarded (the uniqueness guard), so they keep the full pair shape. -/

/-- Translation of the `configs.Database` interface the controller is wired
to.  Each field returns what the corresponding Go method returns. -/
structure Database where
  CreateUser : UserWithCompanyAsObject → Except String ObjectID
  FindUserByID : ObjectID → Option UserWithCompanyAsObject × Option String
  FindUserByEmail : String → Option UserWithCompanyAsObject × Option String
  FindAllUsers : ObjectID → Except String (List UserWithCompanyAsObject)

/-! ## Response envelope (`responses.UserResponse`) -/

/-- Body placed under `Data` in the `responses.UserResponse` envelope. -/
inductive Payload where
  /-- `Data: nil`. -/
  | empty : Payload
  /-- `Data: {"data": <error string>}`. -/
  | errData : String → Payload
  /-- `Data: {"data": <aggregated field errors>}` from the validator. -/
  | fieldErrs : List String → Payload
  /-- `Data: {"user": <models.User>}` — the register success echo. -/
  | user : User → Payload
  /-- `Data: {"user": <record>}` from the single-record lookups. -/
  | record : Option UserWithCompanyAsObject → Payload
  /-- `Data: {"users": <records>}` from the list endpoint. -/
  | records : List UserWithCompanyAsObject → Payload
deriving DecidableEq, Repr

/-- Translation of `responses.UserResponse`. -/
structure UserResponse where
  Status : Nat
  Message : String
  Data : Payload
deriving DecidableEq, Repr

/-! ## Registration handler (`CreateUser` in the live controller)

The handler is a straight line: bind → validate → uniqueness guard → decode
company → store write → echo.  To settle the "no call occurs" clauses of the
spec, the translation returns, besides the JSON the handler writes (`none`
when the bind fails and the handler writes nothing itself), the full trace of
outbound calls it makes.  `createCompanyCalls` traces calls to the
`CreateCompany` provisioner client: the live handler contains no such call, so
no branch ever appends to it. -/

/-- Result of one run of the registration handler: the response the handler
itself writes (if any) and the traces of store/provisioner calls it makes. -/
structure RegisterResult where
  response : Option UserResponse
  findUserByEmailCalls : List String
  createUserCalls : List UserWithCompanyAsObject
  createCompanyCalls : List String
deriving DecidableEq, Repr

/-- The record the handler assembles before the store write (the Go local
`userWithCompany`): verbatim request fields plus the decoded company. -/
def userWithCompany (user : User) (companyIdObject : ObjectID) : UserWithCompanyAsObject :=
  { Name := user.Name, Email := user.Email, Password := user.Password,
    Role := user.Role, Company := companyIdObject }

/-- Translation of the `CreateUser` handler body.  `parsed` is the outcome of
`c.BindJSON(&user)`: `none` when the body is not valid JSON for `models.User`
(the handler then just returns — gin's bind layer alone has written a 400). -/
def CreateUser (db : Database) (parsed : Option User) : RegisterResult :=
  match parsed with
  | none =>
      { response := none, findUserByEmailCalls := [], createUserCalls := [],
        createCompanyCalls := [] }
  | some user =>
    match ValidateRequest user with
    | some fieldErrs =>
        { response := some { Status := 400, Message := "validation error",
                             Data := Payload.fieldErrs fieldErrs },
          findUserByEmailCalls := [], createUserCalls := [], createCompanyCalls := [] }
    | none =>
      let lookup := db.FindUserByEmail user.Email
      match lookup.1 with
      | some existing =>
          { response := some { Status := 400,
                               Message := "User already exists with email: " ++ existing.Email,
                               Data := Payload.errData
                                 ("User already exists with email: " ++ existing.Email) },
            findUserByEmailCalls := [user.Email], createUserCalls := [],
            createCompanyCalls := [] }
      | none =>
        match ObjectIDFromHex user.Company with
        | none =>
            { response := some { Status := 500, Message := "error on companyId as an object",
                                 Data := Payload.errData "encoding/hex: invalid byte" },
              findUserByEmailCalls := [user.Email], createUserCalls := [],
              createCompanyCalls := [] }
        | some companyIdObject =>
          match db.CreateUser (userWithCompany user companyIdObject) with
          | Except.error e =>
              { response := some { Status := 500, Message := "error storing user on database",
                                   Data := Payload.errData e },
                findUserByEmailCalls := [user.Email],
                createUserCalls := [userWithCompany user companyIdObject],
                createCompanyCalls := [] }
          | Except.ok userId =>
              { response := some { Status := 201, Message := "success",
                                   Data := Payload.user { user with Id := userId.Hex } },
                findUserByEmailCalls := [user.Email],
                createUserCalls := [userWithCompany user companyIdObject],
                createCompanyCalls := [] }

/-! ## Query handlers (`FindById`, `GetUsers`, `FindByEmail`) -/

/-- Translation of the `FindByEmail` helper: one store lookup; a non-nil error
yields a 500, otherwise the record pointer (possibly nil) is echoed. -/
def FindByEmail (db : Database) (email : String) : UserResponse :=
  match db.FindUserByEmail email with
  | (_, some e) =>
      { Status := 500, Message := "Error getting a user from database with provided email",
        Data := Payload.errData e }
  | (userWithCompany, none) =>
      { Status := 200, Message := "success", Data := Payload.record userWithCompany }

/-- Translation of the `FindById` handler body: the path parameter is decoded
with the error discarded (`objId, _ := primitive.ObjectIDFromHex(userId)`, a
failed decode leaving the zero `ObjectID`), then one store lookup. -/
def FindById (db : Database) (userIdParam : String) : UserResponse :=
  let objId := (ObjectIDFromHex userIdParam).getD NilObjectID
  match db.FindUserByID objId with
  | (_, some e) =>
      { Status := 500, Message := "Error getting a user from database",
        Data := Payload.errData e }
  | (userWithCompany, none) =>
      { Status := 200, Message := "success", Data := Payload.record userWithCompany }

/-- Result of one run of the list handler: the response plus the traces of the
store calls it (or the `FindByEmail` helper it delegates to) makes. -/
structure GetUsersResult where
  response : UserResponse
  findUserByEmailCalls : List String
  findAllUsersCalls : List ObjectID
deriving DecidableEq, Repr

/-- Translation of the `GetUsers` handler body.  `emailParam` and
`companyParam` are `c.Query("email")` and `c.Query("company")`, which return
`""` when the query parameter is absent. -/
def GetUsers (db : Database) (emailParam companyParam : String) : GetUsersResult :=
  if emailParam ≠ "" then
    { response := FindByEmail db emailParam,
      findUserByEmailCalls := [emailParam], findAllUsersCalls := [] }
  else if companyParam = "" ∨ companyParam = "undefined" then
    { response := { Status := 400,
                    Message := "Error getting user for a company, Company query parameter is missing",
                    Data := Payload.empty },
      findUserByEmailCalls := [], findAllUsersCalls := [] }
  else
    let objId := (ObjectIDFromHex companyParam).getD NilObjectID
    match db.FindAllUsers objId with
    | Except.error _ =>
        { response := { Status := 500,
                        Message := "There was a problem trying to find users on database",
                        Data := Payload.empty },
          findUserByEmailCalls := [], findAllUsersCalls := [objId] }
    | Except.ok usersList =>
        { response := { Status := 200, Message := "success",
                        Data := Payload.records usersList },
          findUserByEmailCalls := [], findAllUsersCalls := [objId] }

/-! ## The mongo store layer (`internal/configs`, `MongoDB` methods)

The collection is modelled as the list of stored records (in cursor order);
mongo filters are equality filters on the relevant field.  A single-record
lookup that matches nothing fails with the driver's "no documents" error —
"not found" is an error, not a typed empty result.  The identifier `InsertOne`
assigns is outside the program, so it enters the model as the `freshId`
parameter. -/

/-- Translation of `MongoDB.FindAllUsers`: filter the collection on the
`company` field, blank the `Password` of every decoded record, and collect. -/
def mongoFindAllUsers (store : List UserWithCompanyAsObject) (companyId : ObjectID) :
    List UserWithCompanyAsObject :=
  (store.filter (fun u => decide (u.Company = companyId))).map
    (fun u => { u with Password := "" })

/-- The `configs.Database` implementation backed by a collection snapshot
`store`, with `freshId` the identifier `InsertOne` mints for a write. -/
def mongoDatabase (store : List UserWithCompanyAsObject) (freshId : ObjectID) : Database where
  CreateUser := fun _ => Except.ok freshId
  FindUserByID := fun id =>
    match store.find? (fun u => decide (u.Id = id)) with
    | some u => (some u, none)
    | none => (none, some "mongo: no documents in result")
  FindUserByEmail := fun email =>
    match store.find? (fun u => decide (u.Email = email)) with
    | some u => (some u, none)
    | none => (none, some "mongo: no documents in result")
  FindAllUsers := fun companyId => Except.ok (mongoFindAllUsers store companyId)

/-! ## Concrete fixtures (drawn from `user_controller_test.go`) -/

/-- The company identifier `"649060d540e3b169621e9629"` used by the tests. -/
def sampleCompanyId : ObjectID := ⟨"649060d540e3b169621e9629"⟩

/-- The store-assigned user identifier `"648a26b07c0d535bb1526e1a"`. -/
def sampleUserId : ObjectID := ⟨"648a26b07c0d535bb1526e1a"⟩

/-- The registration payload of the `TestCreateNewUser` scenario, with the
invitation flag set as in the concrete scenario of the spec. -/
def sampleRequest : User :=
  { Name := "Test User", Password := "password", Email := "test@example.com",
    Role := "admin", Company := "649060d540e3b169621e9629", Invitation := true }

/-- A stored record carrying the sample email, used to exercise the duplicate
branch and the read surfaces. -/
def sampleStoredRecord : UserWithCompanyAsObject :=
  { Id := sampleUserId, Name := "Test User", Password := "password",
    Email := "test@example.com", Role := "admin", Company := sampleCompanyId }

/-! ## Branch lemmas for the registration handler -/

/-- When validation fails, the handler answers 400 before any outbound call. -/
theorem CreateUser_validation_branch (db : Database) (u : User) (fs : List String)
    (hv : ValidateRequest u = some fs) :
    CreateUser db (some u) =
      { response := some { Status := 400, Message := "validation error",
                           Data := Payload.fieldErrs fs },
        findUserByEmailCalls := [], createUserCalls := [], createCompanyCalls := [] } := by
  simp [CreateUser, hv]

/-- When the guard's lookup yields a record, the handler answers 400 with the
conflict message built from that record's email, whatever the lookup error
component was, and makes no further call. -/
theorem CreateUser_duplicate_branch (db : Database) (u : User)
    (existing : UserWithCompanyAsObject)
    (hv : ValidateRequest u = none)
    (hf : (db.FindUserByEmail u.Email).1 = some existing) :
    CreateUser db (some u) =
      { response := some { Status := 400,
                           Message := "User already exists with email: " ++ existing.Email,
                           Data := Payload.errData
                             ("User already exists with email: " ++ existing.Email) },
        findUserByEmailCalls := [u.Email], createUserCalls := [],
        createCompanyCalls := [] } := by
  simp [CreateUser, hv, hf]

/-- When the guard finds nothing and the company token does not decode, the
handler answers 500 and never reaches the store write. -/
theorem CreateUser_decode_fail_branch (db : Database) (u : User)
    (hv : ValidateRequest u = none)
    (hf : (db.FindUserByEmail u.Email).1 = none)
    (hd : ObjectIDFromHex u.Company = none) :
    CreateUser db (some u) =
      { response := some { Status := 500, Message := "error on companyId as an object",
                           Data := Payload.errData "encoding/hex: invalid byte" },
        findUserByEmailCalls := [u.Email], createUserCalls := [],
        createCompanyCalls := [] } := by
  simp [CreateUser, hv, hf, hd]

/-- When every step succeeds, the handler writes the assembled record and
echoes the request payload with `Id` set to the store-assigned identifier. -/
theorem CreateUser_success_branch (db : Database) (u : User) (cid userId : ObjectID)
    (hv : ValidateRequest u = none)
    (hf : (db.FindUserByEmail u.Email).1 = none)
    (hd : ObjectIDFromHex u.Company = some cid)
    (hc : db.CreateUser (userWithCompany u cid) = Except.ok userId) :
    CreateUser db (some u) =
      { response := some { Status := 201, Message := "success",
                           Data := Payload.user { u with Id := userId.Hex } },
        findUserByEmailCalls := [u.Email],
        createUserCalls := [userWithCompany u cid],
        createCompanyCalls := [] } := by
  simp [CreateUser, hv, hf, hd, hc]

/-- Whenever the company token decodes, the (unique) write the handler
attempts carries the decoded reference, whether or not the write succeeds. -/
theorem CreateUser_write_attempt (db : Database) (u : User) (cid : ObjectID)
    (hv : ValidateRequest u = none)
    (hf : (db.FindUserByEmail u.Email).1 = none)
    (hd : ObjectIDFromHex u.Company = some cid) :
    (CreateUser db (some u)).createUserCalls = [userWithCompany u cid] := by
  cases hc : db.CreateUser (userWithCompany u cid) with
  | error e => simp [CreateUser, hv, hf, hd, hc]
  | ok userId => simp [CreateUser, hv, hf, hd, hc]

/-- Whatever the input, the live handler never calls the provisioner. -/
theorem CreateUser_no_provisioner (db : Database) (parsed : Option User) :
    (CreateUser db parsed).createCompanyCalls = [] := by
  unfold CreateUser
  repeat' ((try dsimp only); (first | rfl | split))
  all_goals rfl

/-- The aggregated validator error names a field exactly when that field is
empty: nothing is dropped after the first miss. -/
theorem missingRequiredFields_complete (u : User) :
    ("Name" ∈ u.missingRequiredFields ↔ u.Name = "") ∧
    ("Password" ∈ u.missingRequiredFields ↔ u.Password = "") ∧
    ("Email" ∈ u.missingRequiredFields ↔ u.Email = "") ∧
    ("Role" ∈ u.missingRequiredFields ↔ u.Role = "") ∧
    ("Company" ∈ u.missingRequiredFields ↔ u.Company = "") := by
  unfold User.missingRequiredFields
  split_ifs <;> simp_all

/-- With at least one required field empty, `ValidateRequest` returns the
aggregated error. -/
theorem ValidateRequest_eq_some (u : User) (h : u.missingRequiredFields ≠ []) :
    ValidateRequest u = some u.missingRequiredFields := by
  unfold ValidateRequest
  cases hm : u.missingRequiredFields with
  | nil => exact absurd hm h
  | cons a l => rfl

/-- On a store holding a record with the probed email, the mongo lookup the
uniqueness guard issues yields such a record, and that record carries the
probed email. -/
theorem mongo_lookup_of_dup (store : List UserWithCompanyAsObject) (freshId : ObjectID)
    (email : String) (hdup : ∃ r ∈ store, r.Email = email) :
    ∃ ex, ((mongoDatabase store freshId).FindUserByEmail email).1 = some ex ∧
      ex.Email = email := by
  rcases hdup with ⟨r, hr, hre⟩
  cases hf : store.find? (fun x => decide (x.Email = email)) with
  | none =>
    rw [List.find?_eq_none] at hf
    exact absurd (decide_eq_true hre) (hf r hr)
  | some ex =>
    have hp := List.find?_some hf
    exact ⟨ex, by simp [mongoDatabase, hf], of_decide_eq_true hp⟩

end UserService

namespace UserService

/-! ## The claims -/

/-- Claim C2: for every registration request (passing the validation step that
the spec's state machine runs first) whose email already has a stored record,
register fails with status 400 and the message
`"User already exists with email: <email>"`, the guard's lookup is the only
outbound call made (so the duplicate check wins over company resolution — note
no decodability of the company token is assumed), no provisioner call is made
and no store write occurs. -/
theorem claim_c2_duplicate_email (store : List UserWithCompanyAsObject)
    (freshId : ObjectID) (u : User)
    (hv : ValidateRequest u = none)
    (hdup : ∃ r ∈ store, r.Email = u.Email) :
    CreateUser (mongoDatabase store freshId) (some u) =
      { response := some
          { Status := 400,
            Message := "User already exists with email: " ++ u.Email,
            Data := Payload.errData ("User already exists with email: " ++ u.Email) },
        findUserByEmailCalls := [u.Email], createUserCalls := [],
        createCompanyCalls := [] } := by
  obtain ⟨ex, hdb, hex⟩ := mongo_lookup_of_dup store freshId u.Email hdup
  rw [CreateUser_duplicate_branch _ _ ex hv hdb, hex]

/-- Witness for C2: the concrete repeat of the `test@example.com` scenario
against a store already containing that email. -/
theorem claim_c2_witness :
    (ValidateRequest sampleRequest = none ∧
      ∃ r ∈ [sampleStoredRecord], r.Email = sampleRequest.Email) ∧
    CreateUser (mongoDatabase [sampleStoredRecord] sampleUserId) (some sampleRequest) =
      { response := some
          { Status := 400,
            Message := "User already exists with email: test@example.com",
            Data := Payload.errData "User already exists with email: test@example.com" },
        findUserByEmailCalls := ["test@example.com"], createUserCalls := [],
        createCompanyCalls := [] } :=
  ⟨⟨by decide, by decide⟩,
    claim_c2_duplicate_email [sampleStoredRecord] sampleUserId sampleRequest
      (by decide) (by decide)⟩

/-- Claim C3: a registration request missing any required field fails with the
400 "validation error" response before any store or provisioner call, and the
error aggregates exactly the missing fields (each of the five fields appears
in it iff that field is empty), rather than only the first one. -/
theorem claim_c3_validation_aggregated (db : Database) (u : User)
    (h : u.missingRequiredFields ≠ []) :
    CreateUser db (some u) =
      { response := some
          { Status := 400, Message := "validation error",
            Data := Payload.fieldErrs u.missingRequiredFields },
        findUserByEmailCalls := [], createUserCalls := [],
        createCompanyCalls := [] } ∧
    (("Name" ∈ u.missingRequiredFields ↔ u.Name = "") ∧
     ("Password" ∈ u.missingRequiredFields ↔ u.Password = "") ∧
     ("Email" ∈ u.missingRequiredFields ↔ u.Email = "") ∧
     ("Role" ∈ u.missingRequiredFields ↔ u.Role = "") ∧
     ("Company" ∈ u.missingRequiredFields ↔ u.Company = "")) :=
  ⟨CreateUser_validation_branch db u u.missingRequiredFields
      (ValidateRequest_eq_some u h),
    missingRequiredFields_complete u⟩

/-- Witness for C3: a request missing both name and password is rejected with
both fields listed and no outbound call. -/
theorem claim_c3_witness :
    (User.missingRequiredFields
        { Name := "", Password := "", Email := "e@x.com", Role := "user",
          Company := "c" } ≠ []) ∧
    CreateUser (mongoDatabase [] sampleUserId)
        (some { Name := "", Password := "", Email := "e@x.com", Role := "user",
                Company := "c" }) =
      { response := some
          { Status := 400, Message := "validation error",
            Data := Payload.fieldErrs ["Name", "Password"] },
        findUserByEmailCalls := [], createUserCalls := [],
        createCompanyCalls := [] } :=
  ⟨by decide,
    (claim_c3_validation_aggregated (mongoDatabase [] sampleUserId)
        { Name := "", Password := "", Email := "e@x.com", Role := "user",
          Company := "c" } (by decide)).1⟩

/-- Claim C4: every record in the sequence `FindAllUsers` (the find-by-company
read) returns has an empty password field, for every store contents and every
company reference; the `GetUsers` handler forwards that sequence unchanged. -/
theorem claim_c4_find_by_company_scrubs_password
    (store : List UserWithCompanyAsObject) (companyId : ObjectID) :
    ∀ u ∈ mongoFindAllUsers store companyId, u.Password = "" := by
  intro u hu
  simp only [mongoFindAllUsers, List.mem_map] at hu
  obtain ⟨v, hv, rfl⟩ := hu
  rfl

/-- Witness for C4: the scrub applied to a store holding a record with a
non-empty password. -/
theorem claim_c4_witness :
    ({ sampleStoredRecord with Password := "" } : UserWithCompanyAsObject) ∈
      mongoFindAllUsers [sampleStoredRecord] sampleCompanyId ∧
    ({ sampleStoredRecord with Password := "" } : UserWithCompanyAsObject).Password = "" :=
  ⟨by decide,
    claim_c4_find_by_company_scrubs_password [sampleStoredRecord] sampleCompanyId
      { sampleStoredRecord with Password := "" } (by decide)⟩

/-- Claim C10: when the JSON bind fails, the registration handler returns at
once: it writes no response body of its own (the 400 the client sees comes
from gin's bind layer alone), and performs no validation, no uniqueness
lookup, no company resolution and no store write. -/
theorem claim_c10_bind_failure_is_silent (db : Database) :
    CreateUser db none =
      { response := none, findUserByEmailCalls := [], createUserCalls := [],
        createCompanyCalls := [] } := rfl

end UserService


namespace UserService

/-- The C1 scenario: a valid request founding a new company
(`invitation=false`), no record sharing its email. -/
def c1Request : User :=
  { sampleRequest with Invitation := false }

/-- Counterexample to claim C1: on a valid `invitation=false` request with a
fresh email the handler runs to a successful 201, yet its provisioner-call
trace is empty — `CreateCompany` is never invoked, and the company persisted
is the decode of the request's own company string, not anything a provisioner
returned. -/
theorem claim_c1_counterexample :
    (CreateUser (mongoDatabase [] sampleUserId) (some c1Request)).response =
      some { Status := 201, Message := "success",
             Data := Payload.user { c1Request with Id := "648a26b07c0d535bb1526e1a" } } ∧
    (CreateUser (mongoDatabase [] sampleUserId) (some c1Request)).createCompanyCalls = [] ∧
    (CreateUser (mongoDatabase [] sampleUserId) (some c1Request)).createUserCalls =
      [userWithCompany c1Request sampleCompanyId] := by
  refine ⟨?_, ?_, ?_⟩ <;> decide

/-- Claim C1 as amended: for every valid `invitation=false` request with a
fresh email, the live handler never invokes the provisioner; it decodes
`req.company` directly — if the decode fails the registration fails with the
500 identifier error and no store write happens, and if it yields `cid` the
(unique) attempted write stores `cid` as the company. -/
theorem claim_c1_amended_no_provisioning (db : Database) (u : User)
    (_hinv : u.Invitation = false)
    (hv : ValidateRequest u = none)
    (hf : (db.FindUserByEmail u.Email).1 = none) :
    (CreateUser db (some u)).createCompanyCalls = [] ∧
    (ObjectIDFromHex u.Company = none →
      (CreateUser db (some u)).response =
        some { Status := 500, Message := "error on companyId as an object",
               Data := Payload.errData "encoding/hex: invalid byte" } ∧
      (CreateUser db (some u)).createUserCalls = []) ∧
    (∀ cid, ObjectIDFromHex u.Company = some cid →
      (CreateUser db (some u)).createUserCalls = [userWithCompany u cid]) := by
  refine ⟨CreateUser_no_provisioner db (some u), ?_, ?_⟩
  · intro hd
    rw [CreateUser_decode_fail_branch db u hv hf hd]
    exact ⟨rfl, rfl⟩
  · intro cid hd
    exact CreateUser_write_attempt db u cid hv hf hd

/-- Witness for the amended C1 at the concrete scenario request. -/
theorem claim_c1_witness :
    (c1Request.Invitation = false ∧ ValidateRequest c1Request = none) ∧
    (CreateUser (mongoDatabase [] sampleUserId) (some c1Request)).createCompanyCalls = [] ∧
    (CreateUser (mongoDatabase [] sampleUserId) (some c1Request)).createUserCalls =
      [userWithCompany c1Request sampleCompanyId] :=
  ⟨⟨by decide, by decide⟩,
    (claim_c1_amended_no_provisioning (mongoDatabase [] sampleUserId) c1Request
        (by decide) (by decide) (by decide)).1,
    (claim_c1_amended_no_provisioning (mongoDatabase [] sampleUserId) c1Request
        (by decide) (by decide) (by decide)).2.2 sampleCompanyId (by decide)⟩

/-- Claim C5: on an `invitation=true` request (otherwise valid, fresh email)
whose company token does not decode, register fails with the 500 invalid
reference error and no store write occurs; when the token decodes, the
decoded reference itself is what the write stores, and no provisioner call
is made on either path. -/
theorem claim_c5_invitation_token_decode (db : Database) (u : User)
    (_hinv : u.Invitation = true)
    (hv : ValidateRequest u = none)
    (hf : (db.FindUserByEmail u.Email).1 = none) :
    (CreateUser db (some u)).createCompanyCalls = [] ∧
    (ObjectIDFromHex u.Company = none →
      (CreateUser db (some u)).response =
        some { Status := 500, Message := "error on companyId as an object",
               Data := Payload.errData "encoding/hex: invalid byte" } ∧
      (CreateUser db (some u)).createUserCalls = []) ∧
    (∀ cid, ObjectIDFromHex u.Company = some cid →
      (CreateUser db (some u)).createUserCalls = [userWithCompany u cid]) := by
  refine ⟨CreateUser_no_provisioner db (some u), ?_, ?_⟩
  · intro hd
    rw [CreateUser_decode_fail_branch db u hv hf hd]
    exact ⟨rfl, rfl⟩
  · intro cid hd
    exact CreateUser_write_attempt db u cid hv hf hd

/-- Witness for C5: the malformed token of `TestErrorWrongObjectId` on an
invited request is rejected with the 500 identifier error and no write. -/
theorem claim_c5_witness :
    (ObjectIDFromHex "606d97b4c1bea43ce49be6dc_!WorngId" = none ∧
      ValidateRequest { sampleRequest with Company := "606d97b4c1bea43ce49be6dc_!WorngId" } = none) ∧
    (CreateUser (mongoDatabase [] sampleUserId)
        (some { sampleRequest with Company := "606d97b4c1bea43ce49be6dc_!WorngId" })).response =
      some { Status := 500, Message := "error on companyId as an object",
             Data := Payload.errData "encoding/hex: invalid byte" } :=
  ⟨⟨by decide, by decide⟩,
    ((claim_c5_invitation_token_decode (mongoDatabase [] sampleUserId)
        { sampleRequest with Company := "606d97b4c1bea43ce49be6dc_!WorngId" }
        (by decide) (by decide) (by decide)).2.1 (by decide)).1⟩

/-- Claim C6: a failing (record-less) uniqueness lookup is swallowed — the
handler run is literally equal to the run against the same store answering
"no record, no error" for that email, so the lookup failure is never
surfaced and registration proceeds as in the no-existing-record case. -/
theorem claim_c6_lookup_error_swallowed (db : Database) (u : User) (err : String)
    (h : db.FindUserByEmail u.Email = (none, some err)) :
    CreateUser db (some u) =
      CreateUser
        { db with FindUserByEmail :=
            fun e => if e = u.Email then (none, none) else db.FindUserByEmail e }
        (some u) := by
  simp [CreateUser, h]

/-- Witness for C6: the empty mongo store answers every lookup with the
driver's "no documents" error, and the handler behaves as if the error were
absent. -/
theorem claim_c6_witness :
    (mongoDatabase [] sampleUserId).FindUserByEmail sampleRequest.Email =
      (none, some "mongo: no documents in result") ∧
    CreateUser (mongoDatabase [] sampleUserId) (some sampleRequest) =
      CreateUser
        { mongoDatabase [] sampleUserId with FindUserByEmail :=
            fun e => if e = sampleRequest.Email then (none, none)
                     else (mongoDatabase [] sampleUserId).FindUserByEmail e }
        (some sampleRequest) :=
  ⟨by decide,
    claim_c6_lookup_error_swallowed (mongoDatabase [] sampleUserId) sampleRequest
      "mongo: no documents in result" (by decide)⟩

end UserService

namespace UserService

/-- Claim C7: the concrete invited scenario against an empty store returns
201/"success" echoing `email="test@example.com"`,
`company="649060d540e3b169621e9629"` and the non-empty store-assigned
identifier; and in general a successful registration answers with the
request payload whose `Id` is populated with the identifier the store
assigned to the write. -/
theorem claim_c7_success_identifier :
    ((CreateUser (mongoDatabase [] sampleUserId) (some sampleRequest)).response =
        some { Status := 201, Message := "success",
               Data := Payload.user { sampleRequest with Id := "648a26b07c0d535bb1526e1a" } } ∧
      sampleRequest.Email = "test@example.com" ∧
      sampleRequest.Company = "649060d540e3b169621e9629" ∧
      "648a26b07c0d535bb1526e1a" ≠ "") ∧
    (∀ (db : Database) (u : User) (cid userId : ObjectID),
      ValidateRequest u = none →
      (db.FindUserByEmail u.Email).1 = none →
      ObjectIDFromHex u.Company = some cid →
      db.CreateUser (userWithCompany u cid) = Except.ok userId →
      (CreateUser db (some u)).response =
        some { Status := 201, Message := "success",
               Data := Payload.user { u with Id := userId.Hex } }) := by
  constructor
  · exact ⟨by decide, by decide, by decide, by decide⟩
  · intro db u cid userId hv hf hd hc
    rw [CreateUser_success_branch db u cid userId hv hf hd hc]

/-- Witness for C7: the general clause applied to the concrete scenario. -/
theorem claim_c7_witness :
    (ValidateRequest sampleRequest = none ∧
      ObjectIDFromHex sampleRequest.Company = some sampleCompanyId) ∧
    (CreateUser (mongoDatabase [] sampleUserId) (some sampleRequest)).response =
      some { Status := 201, Message := "success",
             Data := Payload.user { sampleRequest with Id := sampleUserId.Hex } } :=
  ⟨⟨by decide, by decide⟩,
    claim_c7_success_identifier.2 (mongoDatabase [] sampleUserId) sampleRequest
      sampleCompanyId sampleUserId (by decide) (by decide) (by decide) rfl⟩

/-- Claim C8: on the list endpoint a non-empty `email` parameter takes the
email-lookup path whatever the `company` parameter holds (the run is equal
for any two company values, one email lookup happens and no find-by-company
call is made); with no email and a `company` that is empty or the literal
`"undefined"`, the handler answers 400 with the company-parameter-missing
message and performs no store call at all. -/
theorem claim_c8_list_endpoint_params (db : Database)
    (emailParam companyParam altCompany : String) :
    (emailParam ≠ "" →
      GetUsers db emailParam companyParam = GetUsers db emailParam altCompany ∧
      (GetUsers db emailParam companyParam).findUserByEmailCalls = [emailParam] ∧
      (GetUsers db emailParam companyParam).findAllUsersCalls = []) ∧
    ((companyParam = "" ∨ companyParam = "undefined") →
      GetUsers db "" companyParam =
        { response :=
            { Status := 400,
              Message := "Error getting user for a company, Company query parameter is missing",
              Data := Payload.empty },
          findUserByEmailCalls := [], findAllUsersCalls := [] }) := by
  constructor
  · intro he
    refine ⟨?_, ?_, ?_⟩ <;> simp [GetUsers, he]
  · rintro (rfl | rfl) <;> simp [GetUsers]

/-- Witness for C8: both halves at concrete query parameters. -/
theorem claim_c8_witness :
    (("a@b.c" : String) ≠ "" ∧
      GetUsers (mongoDatabase [] sampleUserId) "a@b.c" "649060d540e3b169621e9629" =
        GetUsers (mongoDatabase [] sampleUserId) "a@b.c" "undefined") ∧
    GetUsers (mongoDatabase [] sampleUserId) "" "undefined" =
      { response :=
          { Status := 400,
            Message := "Error getting user for a company, Company query parameter is missing",
            Data := Payload.empty },
        findUserByEmailCalls := [], findAllUsersCalls := [] } :=
  ⟨⟨by decide,
      ((claim_c8_list_endpoint_params (mongoDatabase [] sampleUserId) "a@b.c"
          "649060d540e3b169621e9629" "undefined").1 (by decide)).1⟩,
    (claim_c8_list_endpoint_params (mongoDatabase [] sampleUserId) "" "undefined"
        "undefined").2 (Or.inr rfl)⟩

/-- Claim C9 (implicit): the single-record read surfaces return the stored
record verbatim — `FindById` and `FindByEmail` put the record, password
field untouched, in their 200 payload (the record returned is literally a
member of the store), and a successful registration's 201 payload echoes the
submitted password; only the find-by-company path scrubs. -/
theorem claim_c9_single_reads_keep_password :
    (∀ (store : List UserWithCompanyAsObject) (freshId : ObjectID)
       (idParam : String) (objId : ObjectID) (r : UserWithCompanyAsObject),
      ObjectIDFromHex idParam = some objId →
      store.find? (fun x => decide (x.Id = objId)) = some r →
      FindById (mongoDatabase store freshId) idParam =
        { Status := 200, Message := "success", Data := Payload.record (some r) } ∧
      r ∈ store) ∧
    (∀ (store : List UserWithCompanyAsObject) (freshId : ObjectID)
       (email : String) (r : UserWithCompanyAsObject),
      store.find? (fun x => decide (x.Email = email)) = some r →
      FindByEmail (mongoDatabase store freshId) email =
        { Status := 200, Message := "success", Data := Payload.record (some r) } ∧
      r ∈ store) ∧
    (∀ (db : Database) (u : User) (cid userId : ObjectID),
      ValidateRequest u = none →
      (db.FindUserByEmail u.Email).1 = none →
      ObjectIDFromHex u.Company = some cid →
      db.CreateUser (userWithCompany u cid) = Except.ok userId →
      ∃ echoed : User,
        (CreateUser db (some u)).response =
          some { Status := 201, Message := "success", Data := Payload.user echoed } ∧
        echoed.Password = u.Password) := by
  refine ⟨?_, ?_, ?_⟩
  · intro store freshId idParam objId r hdec hfind
    refine ⟨?_, List.mem_of_find?_eq_some hfind⟩
    simp [FindById, mongoDatabase, hdec, hfind]
  · intro store freshId email r hfind
    refine ⟨?_, List.mem_of_find?_eq_some hfind⟩
    simp [FindByEmail, mongoDatabase, hfind]
  · intro db u cid userId hv hf hd hc
    refine ⟨{ u with Id := userId.Hex }, ?_, rfl⟩
    rw [CreateUser_success_branch db u cid userId hv hf hd hc]

/-- Witness for C9: the stored record of the fixtures is returned with its
password `"password"` intact by the find-by-id surface. -/
theorem claim_c9_witness :
    (ObjectIDFromHex "648a26b07c0d535bb1526e1a" = some sampleUserId ∧
      [sampleStoredRecord].find? (fun x => decide (x.Id = sampleUserId)) =
        some sampleStoredRecord) ∧
    FindById (mongoDatabase [sampleStoredRecord] sampleUserId) "648a26b07c0d535bb1526e1a" =
      { Status := 200, Message := "success",
        Data := Payload.record (some sampleStoredRecord) } ∧
    sampleStoredRecord.Password = "password" :=
  ⟨⟨by decide, by decide⟩,
    (claim_c9_single_reads_keep_password.1 [sampleStoredRecord] sampleUserId
        "648a26b07c0d535bb1526e1a" sampleUserId sampleStoredRecord
        (by decide) (by decide)).1,
    by decide⟩

end UserService
